import Mathlib

/-!
Shallow embedding of the `requests_circuit_breaker` library
(source file `src/src/__init__.py`).

Python values flowing through the breaker are modelled by the inductive
type `Value` (an exception instance, an HTTP response carrying a status
code, or any other value).  Exceptions are the inductive `Exc`; the
wrapped operation's behaviour on one invocation is an
`Except Exc Value` (it either returns a value or raises).  Timestamps
(`datetime.datetime`) are modelled as natural numbers, the current time
(`datetime.datetime.utcnow()`) being passed explicitly as a `now`
parameter.  Mutation of the storage is modelled by explicit state
passing: each operation returns the updated breaker.
-/

set_option autoImplicit false

/-- The three circuit-breaker states (`State` enum in the source).
`open` is a Lean keyword, so that constructor is called `open_`. -/
inductive State where
  | open_ : State
  | half_open : State
  | closed : State
deriving DecidableEq

/-- Python exception instances relevant to the breaker: the built-in
`ConnectionError`, the library's `CircuitBreakerError` and
`CircuitBreakerOpenedError`, the `TypeError` raised by an order
comparison against `None`, and arbitrary other exceptions (tagged by a
number so that distinct exception objects can be told apart). -/
inductive Exc where
  | connectionError (tag : Nat) : Exc
  | circuitBreakerError : Exc
  | circuitBreakerOpenedError : Exc
  | typeError : Exc
  | otherExc (tag : Nat) : Exc
deriving DecidableEq

/-- A Python value as seen by the failure checkers: an exception
instance, a `requests` `Response` carrying its `status_code`, or any
other (non-exception, non-response) value. -/
inductive Value where
  | exc (e : Exc) : Value
  | response (status_code : Nat) : Value
  | other (tag : Nat) : Value
deriving DecidableEq

/-- `isinstance(result, Exception)` on a modelled value. -/
def Value.isinstance_Exception : Value → Bool
  | .exc _ => true
  | _ => false

/-- The `FailureCounter` dataclass: a failure count and the optional
timestamp of the most recent failure (`last_failure_dt`). -/
structure FailureCounter where
  total_failures : Nat := 0
  last_failure_dt : Option Nat := none
deriving DecidableEq

/-- Modelled from the spec: the concrete `Storage` implementation is not
in `src` (only a commented-out `CircuitBreakerStorageProtocol`), so
`increment_counter` follows the spec's §4.1 contract — it increases
`total_failures` by 1 and sets `last_failure_dt` to the current time. -/
def FailureCounter.increment_counter (c : FailureCounter) (now : Nat) : FailureCounter :=
  { total_failures := c.total_failures + 1, last_failure_dt := some now }

/-- Modelled from the spec: the concrete `Storage` implementation is not
in `src`, so `reset_counter` follows the spec's §4.1 contract — it sets
`total_failures = 0` and `last_failure_dt = none`. -/
def FailureCounter.reset_counter (_ : FailureCounter) : FailureCounter :=
  { total_failures := 0, last_failure_dt := none }

/-- The `CircuitBreaker` object: its storage (modelled by the single
`FailureCounter` the storage owns), the failure threshold set by
`__init__`, and the optional pluggable failure checker. -/
structure CircuitBreaker where
  storage : FailureCounter
  failure_threshold : Nat
  failure_checker : Option (Value → Bool)

/-- `CircuitBreaker.__init__(self, storage, failure_checker=None)`:
takes the storage and an optional failure checker; the threshold is
assigned the literal `100` (it is not a parameter). -/
def CircuitBreaker.init (storage : FailureCounter)
    (failure_checker : Option (Value → Bool)) : CircuitBreaker :=
  { storage := storage, failure_threshold := 100, failure_checker := failure_checker }

/-- Follows the spec's words for claim C8 (§6: "Constructor inputs: a
Storage implementation (required), a FailureChecker (optional ...), and
a fixed failure threshold (configuration value; default 100)"): a
constructor that additionally takes the failure threshold as an input.
Used only for comparison against `CircuitBreaker.init`. -/
def CircuitBreaker.init_spec (storage : FailureCounter)
    (failure_checker : Option (Value → Bool)) (failure_threshold : Nat) : CircuitBreaker :=
  { storage := storage, failure_threshold := failure_threshold,
    failure_checker := failure_checker }

/-- The `state` property: read the storage's counter; if
`total_failures > threshold` compare `last_failure_dt` with now
(`half_open` when `last_failure_dt >= now`, else `open`); otherwise
`closed`.  When `last_failure_dt` is `None`, Python's
`None >= datetime.datetime.utcnow()` raises a `TypeError`, modelled as
`Except.error Exc.typeError`. -/
def CircuitBreaker.state (b : CircuitBreaker) (now : Nat) : Except Exc State :=
  let counter := b.storage
  if counter.total_failures > b.failure_threshold then
    match counter.last_failure_dt with
    | some t => if t ≥ now then Except.ok State.half_open else Except.ok State.open_
    | none => Except.error Exc.typeError
  else
    Except.ok State.closed

/-- `CircuitBreaker.reset`: delegates to `storage.reset_counter()`. -/
def CircuitBreaker.reset (b : CircuitBreaker) : CircuitBreaker :=
  { b with storage := b.storage.reset_counter }

/-- `CircuitBreaker.record_failure`: delegates to
`storage.increment_counter()`. -/
def CircuitBreaker.record_failure (b : CircuitBreaker) (now : Nat) : CircuitBreaker :=
  { b with storage := b.storage.increment_counter now }

/-- `CircuitBreaker._default_failure_checker`:
`return isinstance(result, Exception)`. -/
def CircuitBreaker.default_failure_checker (result : Value) : Bool :=
  result.isinstance_Exception

/-- `CircuitBreaker.check_failure`: uses the installed checker when one
is present (`self._failure_checker or self._default_failure_checker`;
function objects are always truthy), else the default. -/
def CircuitBreaker.check_failure (b : CircuitBreaker) (result : Value) : Bool :=
  (b.failure_checker.getD CircuitBreaker.default_failure_checker) result

/-- `CircuitBreaker.add_failure_checker`: replaces the active checker. -/
def CircuitBreaker.add_failure_checker (b : CircuitBreaker)
    (func : Value → Bool) : CircuitBreaker :=
  { b with failure_checker := some func }

/-- Which piece of bookkeeping `__call__` performed. -/
inductive Bookkeeping where
  | recordFailure : Bookkeeping
  | reset : Bookkeeping
deriving DecidableEq

/-- How `__call__` hands control back: by raising an exception or by
returning a value. -/
inductive CallOutcome where
  | raised (e : Exc) : CallOutcome
  | returned (v : Value) : CallOutcome
deriving DecidableEq

/-- Full observable trace of one `__call__` invocation: whether the
wrapped operation was invoked, which bookkeeping ran (if any), how the
call ended, and the breaker afterwards. -/
structure CallResult where
  invoked : Bool
  bookkeeping : Option Bookkeeping
  outcome : CallOutcome
  after : CircuitBreaker

/-- `try: result = func(*args, **kwargs) except Exception as e: result = e`:
the captured outcome of invoking the wrapped operation. -/
def runOp (behavior : Except Exc Value) : Value :=
  match behavior with
  | Except.ok v => v
  | Except.error e => Value.exc e

/-- `CircuitBreaker.__call__(self, func, func_args, func_kwargs)`.
The wrapped operation (together with its arguments) is abstracted by its
behaviour on this invocation, `behavior : Except Exc Value`.
Steps, mirroring the source: evaluate `state` (a raised `TypeError`
propagates); if `open`, `raise CircuitBreakerError()` (the base class,
as written on line 82); otherwise invoke the operation capturing a
raised exception as the result, classify with `check_failure`, do one
piece of bookkeeping, then re-raise the result if it is an exception
instance, else return it. -/
def CircuitBreaker.call (b : CircuitBreaker) (now : Nat)
    (behavior : Except Exc Value) : CallResult :=
  match b.state now with
  | Except.error e => ⟨false, none, CallOutcome.raised e, b⟩
  | Except.ok State.open_ => ⟨false, none, CallOutcome.raised Exc.circuitBreakerError, b⟩
  | Except.ok _ =>
    let result := runOp behavior
    let is_failure := b.check_failure result
    let b2 := if is_failure then b.record_failure now else b.reset
    let bk := if is_failure then Bookkeeping.recordFailure else Bookkeeping.reset
    match result with
    | Value.exc e => ⟨true, some bk, CallOutcome.raised e, b2⟩
    | v => ⟨true, some bk, CallOutcome.returned v, b2⟩

/-- `CircuitBreakerAdapter.has_failure`: `True` for a (built-in)
`ConnectionError` instance, `True` for a `Response` whose
`status_code >= 500`, `False` otherwise. -/
def CircuitBreakerAdapter.has_failure : Value → Bool
  | Value.exc (Exc.connectionError _) => true
  | Value.response s => decide (500 ≤ s)
  | _ => false

/-- `CircuitBreakerAdapter.send`: installs `has_failure` on the breaker,
then routes the transport's native send (abstracted by its behaviour on
this invocation) through the breaker's `__call__`. -/
def CircuitBreakerAdapter.send (circuit_breaker : CircuitBreaker) (now : Nat)
    (behavior : Except Exc Value) : CallResult :=
  (circuit_breaker.add_failure_checker CircuitBreakerAdapter.has_failure).call now behavior

set_option maxRecDepth 20000

/-! ### Concrete objects used in scenarios and witnesses -/

/-- A failure checker that always reports failure (the stub checker of
the spec's Scenario A). -/
def alwaysFailChecker : Value → Bool := fun _ => true

/-- An operation that always raises (the always-failing stub operation
of Scenario A). -/
def failingBehavior : Except Exc Value := Except.error (Exc.otherExc 0)

/-- Scenario A of the spec: starting from a zeroed counter with the
always-true failure checker, the breaker after `n` invocations of
`call` on the always-raising operation, all made at time 0. -/
def scenarioA : Nat → CircuitBreaker
  | 0 => CircuitBreaker.init ⟨0, none⟩ (some alwaysFailChecker)
  | n + 1 => ((scenarioA n).call 0 failingBehavior).after

/-- A breaker whose derived state at time 1 is `open`: 101 recorded
failures against the default threshold 100, last failure at time 0. -/
def openBreaker : CircuitBreaker :=
  { storage := { total_failures := 101, last_failure_dt := some 0 },
    failure_threshold := 100, failure_checker := none }

/-! ### Helper lemmas -/

/-- Whenever `call` actually invokes the wrapped operation, its
bookkeeping, resulting breaker and outcome are determined by the
classification of the captured result. -/
theorem call_invoked_spec (b : CircuitBreaker) (now : Nat) (behavior : Except Exc Value)
    (h : (b.call now behavior).invoked = true) :
    (b.call now behavior).bookkeeping =
      some (if b.check_failure (runOp behavior) then Bookkeeping.recordFailure
            else Bookkeeping.reset) ∧
    (b.call now behavior).after =
      (if b.check_failure (runOp behavior) then b.record_failure now else b.reset) ∧
    (b.call now behavior).outcome =
      (match runOp behavior with
        | Value.exc e => CallOutcome.raised e
        | v => CallOutcome.returned v) := by
  unfold CircuitBreaker.call at h ⊢
  rcases hst : b.state now with e | s
  · rw [hst] at h
    simp at h
  · cases s with
    | open_ =>
      rw [hst] at h
      simp at h
    | half_open => cases hr : runOp behavior <;> simp [hr]
    | closed => cases hr : runOp behavior <;> simp [hr]

/-! ### C1 -/

/-- C1 counterexample: on a breaker whose derived state is `open`, the
code raises the base `CircuitBreakerError` (line 82 of the source), not
`CircuitBreakerOpenedError`, so the claim's named exception is wrong at
this concrete input. -/
theorem open_call_raises_base_not_opened_error :
    openBreaker.state 1 = Except.ok State.open_ ∧
    (openBreaker.call 1 (Except.ok (Value.other 0))).invoked = false ∧
    (openBreaker.call 1 (Except.ok (Value.other 0))).outcome ≠
      CallOutcome.raised Exc.circuitBreakerOpenedError := by
  refine ⟨rfl, rfl, ?_⟩
  decide

/-- C1 (amended): for every breaker whose derived state is `open`,
invoking `call` raises `CircuitBreakerError` (the base class, not its
`CircuitBreakerOpenedError` subtype) immediately; the wrapped operation
is never invoked and the breaker (hence its invocation bookkeeping) is
unchanged. -/
theorem call_on_open_raises_base_error (b : CircuitBreaker) (now : Nat)
    (behavior : Except Exc Value) (h : b.state now = Except.ok State.open_) :
    (b.call now behavior).invoked = false ∧
    (b.call now behavior).outcome = CallOutcome.raised Exc.circuitBreakerError ∧
    (b.call now behavior).after = b := by
  unfold CircuitBreaker.call
  rw [h]
  exact ⟨rfl, rfl, rfl⟩

/-- C1 witness: the amended theorem applied to a concrete open breaker. -/
theorem call_on_open_raises_base_error_witness :
    (openBreaker.call 1 failingBehavior).invoked = false ∧
    (openBreaker.call 1 failingBehavior).outcome = CallOutcome.raised Exc.circuitBreakerError ∧
    (openBreaker.call 1 failingBehavior).after = openBreaker :=
  call_on_open_raises_base_error openBreaker 1 failingBehavior rfl

/-! ### C2 -/

/-- C2: for every storage snapshot, threshold and current time, the
derived state is `half_open` when `total_failures > threshold` and
`last_failure_dt ≥ now`, `open` when `total_failures > threshold` and
`last_failure_dt < now`, and `closed` whenever
`total_failures ≤ threshold`, regardless of the timestamp. -/
theorem state_derivation (c : FailureCounter) (thr now t : Nat)
    (fc : Option (Value → Bool)) :
    (c.total_failures > thr → c.last_failure_dt = some t → t ≥ now →
      CircuitBreaker.state ⟨c, thr, fc⟩ now = Except.ok State.half_open) ∧
    (c.total_failures > thr → c.last_failure_dt = some t → t < now →
      CircuitBreaker.state ⟨c, thr, fc⟩ now = Except.ok State.open_) ∧
    (c.total_failures ≤ thr →
      CircuitBreaker.state ⟨c, thr, fc⟩ now = Except.ok State.closed) := by
  refine ⟨?_, ?_, ?_⟩
  · intro h1 h2 h3
    simp only [CircuitBreaker.state, h2]
    rw [if_pos h1, if_pos h3]
  · intro h1 h2 h3
    simp only [CircuitBreaker.state, h2]
    rw [if_pos h1, if_neg (by omega)]
  · intro h1
    simp only [CircuitBreaker.state]
    rw [if_neg (by omega)]

/-- C2 witness: the derivation theorem at concrete snapshots — 101
failures at time 5 read at time 5 is `half_open`, read at time 6 is
`open`; 100 failures is `closed`. -/
theorem state_derivation_witness :
    CircuitBreaker.state ⟨⟨101, some 5⟩, 100, none⟩ 5 = Except.ok State.half_open ∧
    CircuitBreaker.state ⟨⟨101, some 5⟩, 100, none⟩ 6 = Except.ok State.open_ ∧
    CircuitBreaker.state ⟨⟨100, some 99⟩, 100, none⟩ 0 = Except.ok State.closed :=
  ⟨(state_derivation ⟨101, some 5⟩ 100 5 5 none).1 (by decide) rfl (by decide),
   (state_derivation ⟨101, some 5⟩ 100 6 5 none).2.1 (by decide) rfl (by decide),
   (state_derivation ⟨100, some 99⟩ 100 0 99 none).2.2 (by decide)⟩

/-! ### C9 -/

/-- C9: reading `state` is total only under the invariant that a
positive failure count implies a recorded last-failure timestamp; for
any snapshot with `total_failures > threshold` and no timestamp, the
read fails with a `TypeError` (Python compares `None` against the
current time) instead of returning a `State`. -/
theorem state_requires_timestamp_invariant (c : FailureCounter) (thr now : Nat)
    (fc : Option (Value → Bool)) :
    (c.total_failures > thr → c.last_failure_dt = none →
      CircuitBreaker.state ⟨c, thr, fc⟩ now = Except.error Exc.typeError) ∧
    ((0 < c.total_failures → c.last_failure_dt ≠ none) →
      ∃ st, CircuitBreaker.state ⟨c, thr, fc⟩ now = Except.ok st) := by
  constructor
  · intro h1 h2
    simp only [CircuitBreaker.state, h2]
    rw [if_pos h1]
  · intro hinv
    by_cases h1 : c.total_failures > thr
    · have hne := hinv (by omega)
      rcases hlast : c.last_failure_dt with _ | t
      · exact absurd hlast hne
      · by_cases h2 : t ≥ now
        · exact ⟨State.half_open, by
            simp only [CircuitBreaker.state, hlast]
            rw [if_pos h1, if_pos h2]⟩
        · exact ⟨State.open_, by
            simp only [CircuitBreaker.state, hlast]
            rw [if_pos h1, if_neg h2]⟩
    · exact ⟨State.closed, by
        simp only [CircuitBreaker.state]
        rw [if_neg h1]⟩

/-- C9 witness: a snapshot over the threshold with no timestamp makes
the state read fail with a `TypeError`. -/
theorem state_requires_timestamp_invariant_witness :
    CircuitBreaker.state ⟨⟨101, none⟩, 100, none⟩ 0 = Except.error Exc.typeError :=
  (state_requires_timestamp_invariant ⟨101, none⟩ 100 0 none).1 (by decide) rfl

/-! ### C4 -/

/-- C4: for every `call` invocation in which the wrapped operation is
actually invoked, exactly one bookkeeping operation runs:
`record_failure` (storage increment) when the active checker classifies
the captured outcome as failure, otherwise `reset`, which zeroes the
storage even if `total_failures` was previously non-zero. -/
theorem call_single_bookkeeping (b : CircuitBreaker) (now : Nat)
    (behavior : Except Exc Value) (h : (b.call now behavior).invoked = true) :
    (b.check_failure (runOp behavior) = true →
      (b.call now behavior).bookkeeping = some Bookkeeping.recordFailure ∧
      (b.call now behavior).after.storage = b.storage.increment_counter now) ∧
    (b.check_failure (runOp behavior) = false →
      (b.call now behavior).bookkeeping = some Bookkeeping.reset ∧
      (b.call now behavior).after.storage = { total_failures := 0, last_failure_dt := none }) := by
  obtain ⟨hbk, hafter, _⟩ := call_invoked_spec b now behavior h
  constructor
  · intro hcf
    rw [hbk, hafter, if_pos hcf, if_pos hcf]
    exact ⟨rfl, rfl⟩
  · intro hcf
    rw [hbk, hafter, if_neg (by simp [hcf]), if_neg (by simp [hcf])]
    exact ⟨rfl, rfl⟩

/-- C4 witness: a single successful call on a breaker with 5 recorded
failures performs exactly the reset bookkeeping and zeroes the
counter. -/
theorem call_single_bookkeeping_witness :
    ((CircuitBreaker.init ⟨5, some 0⟩ none).call 0 (Except.ok (Value.other 0))).bookkeeping =
      some Bookkeeping.reset ∧
    ((CircuitBreaker.init ⟨5, some 0⟩ none).call 0 (Except.ok (Value.other 0))).after.storage =
      { total_failures := 0, last_failure_dt := none } :=
  (call_single_bookkeeping (CircuitBreaker.init ⟨5, some 0⟩ none) 0
    (Except.ok (Value.other 0)) rfl).2 rfl

/-! ### C5 -/

/-- C5: every error raised by the wrapped operation inside `call` is,
after bookkeeping runs, re-raised as exactly that same error value —
not wrapped, replaced or downgraded. -/
theorem call_reraises_operation_error (b : CircuitBreaker) (now : Nat) (e : Exc)
    (h : (b.call now (Except.error e)).invoked = true) :
    (b.call now (Except.error e)).outcome = CallOutcome.raised e ∧
    ((b.call now (Except.error e)).bookkeeping).isSome = true := by
  obtain ⟨hbk, _, hout⟩ := call_invoked_spec b now (Except.error e) h
  refine ⟨?_, by rw [hbk]; rfl⟩
  rw [hout]
  rfl

/-- C5 witness: a concrete raised error propagates verbatim through a
closed breaker. -/
theorem call_reraises_operation_error_witness :
    ((CircuitBreaker.init ⟨0, none⟩ none).call 0 (Except.error (Exc.otherExc 7))).outcome =
      CallOutcome.raised (Exc.otherExc 7) ∧
    (((CircuitBreaker.init ⟨0, none⟩ none).call 0
        (Except.error (Exc.otherExc 7))).bookkeeping).isSome = true :=
  call_reraises_operation_error (CircuitBreaker.init ⟨0, none⟩ none) 0 (Exc.otherExc 7) rfl

/-! ### C6 -/

/-- C6: when no checker has been installed, the breaker's
classification (the default failure checker) returns `true` exactly on
values that are exception instances, and `false` on every other
outcome. -/
theorem default_checker_classifies_errors (b : CircuitBreaker) (v : Value)
    (h : b.failure_checker = none) :
    (b.check_failure v = true ↔ ∃ e, v = Value.exc e) := by
  simp only [CircuitBreaker.check_failure, h, Option.getD_none,
    CircuitBreaker.default_failure_checker]
  cases v <;> simp [Value.isinstance_Exception]

/-- C6 witness: the default checker classifies a concrete exception
value as failure. -/
theorem default_checker_classifies_errors_witness :
    (CircuitBreaker.init ⟨0, none⟩ none).check_failure (Value.exc (Exc.otherExc 3)) = true :=
  (default_checker_classifies_errors (CircuitBreaker.init ⟨0, none⟩ none)
    (Value.exc (Exc.otherExc 3)) rfl).mpr ⟨Exc.otherExc 3, rfl⟩

/-! ### C10 -/

/-- C10: if the wrapped operation returns normally but its return value
is itself an exception instance, `call` under the default checker
treats it like a thrown error: a failure is recorded and `call` raises
that returned value instead of returning it. -/
theorem returned_exception_raised (b : CircuitBreaker) (now : Nat) (e : Exc)
    (hchk : b.failure_checker = none)
    (h : (b.call now (Except.ok (Value.exc e))).invoked = true) :
    (b.call now (Except.ok (Value.exc e))).bookkeeping = some Bookkeeping.recordFailure ∧
    (b.call now (Except.ok (Value.exc e))).outcome = CallOutcome.raised e := by
  obtain ⟨hbk, _, hout⟩ := call_invoked_spec b now (Except.ok (Value.exc e)) h
  have hcf : b.check_failure (runOp (Except.ok (Value.exc e))) = true := by
    simp [CircuitBreaker.check_failure, hchk, CircuitBreaker.default_failure_checker,
      runOp, Value.isinstance_Exception]
  constructor
  · rw [hbk, if_pos hcf]
  · rw [hout]
    rfl

/-- C10 witness: a returned exception value is recorded as a failure
and raised by a concrete fresh breaker with the default checker. -/
theorem returned_exception_raised_witness :
    ((CircuitBreaker.init ⟨0, none⟩ none).call 0
        (Except.ok (Value.exc (Exc.otherExc 9)))).bookkeeping =
      some Bookkeeping.recordFailure ∧
    ((CircuitBreaker.init ⟨0, none⟩ none).call 0
        (Except.ok (Value.exc (Exc.otherExc 9)))).outcome =
      CallOutcome.raised (Exc.otherExc 9) :=
  returned_exception_raised (CircuitBreaker.init ⟨0, none⟩ none) 0 (Exc.otherExc 9) rfl rfl

/-! ### C7 -/

/-- A fresh breaker (zeroed counter, default checker) wired to the
transport adapter in the Scenario B facts below. -/
def adapterScenarioBreaker : CircuitBreaker := CircuitBreaker.init ⟨0, none⟩ none

/-- C7: the adapter's failure checker classifies a connection-level
failure as failure and a response with status code ≥ 500 as failure,
and every other outcome as success; consequently, routed through
`send`, a connection failure and a 503 response record a failure while
a 200 and a 404 response reset the counter. -/
theorem adapter_failure_classification :
    (∀ m, CircuitBreakerAdapter.has_failure (Value.exc (Exc.connectionError m)) = true) ∧
    (∀ s, 500 ≤ s → CircuitBreakerAdapter.has_failure (Value.response s) = true) ∧
    (∀ s, s < 500 → CircuitBreakerAdapter.has_failure (Value.response s) = false) ∧
    (∀ v, CircuitBreakerAdapter.has_failure v = true ↔
      ((∃ m, v = Value.exc (Exc.connectionError m)) ∨
       (∃ s, v = Value.response s ∧ 500 ≤ s))) ∧
    (CircuitBreakerAdapter.send adapterScenarioBreaker 0
      (Except.error (Exc.connectionError 0))).bookkeeping = some Bookkeeping.recordFailure ∧
    (CircuitBreakerAdapter.send adapterScenarioBreaker 0
      (Except.ok (Value.response 200))).bookkeeping = some Bookkeeping.reset ∧
    (CircuitBreakerAdapter.send adapterScenarioBreaker 0
      (Except.ok (Value.response 503))).bookkeeping = some Bookkeeping.recordFailure ∧
    (CircuitBreakerAdapter.send adapterScenarioBreaker 0
      (Except.ok (Value.response 404))).bookkeeping = some Bookkeeping.reset := by
  refine ⟨fun m => rfl, fun s hs => ?_, fun s hs => ?_, fun v => ?_, rfl, rfl, rfl, rfl⟩
  · simp [CircuitBreakerAdapter.has_failure, hs]
  · simp only [CircuitBreakerAdapter.has_failure, decide_eq_false_iff_not]
    omega
  · cases v with
    | exc e => cases e <;> simp [CircuitBreakerAdapter.has_failure]
    | response s => simp [CircuitBreakerAdapter.has_failure, decide_eq_true_iff]
    | other t => simp [CircuitBreakerAdapter.has_failure]

/-- C7 witness: the classification theorem applied at concrete status
codes 503 and 404. -/
theorem adapter_failure_classification_witness :
    CircuitBreakerAdapter.has_failure (Value.response 503) = true ∧
    CircuitBreakerAdapter.has_failure (Value.response 404) = false :=
  ⟨adapter_failure_classification.2.1 503 (by decide),
   adapter_failure_classification.2.2.1 404 (by decide)⟩

/-! ### C8 -/

/-- C8 counterexample: the constructor offers no way to configure the
threshold — the breaker it builds has threshold 100, which differs from
the spec-worded constructor invoked with threshold 50, so the threshold
is not a constructor input. -/
theorem init_ignores_spec_threshold :
    (CircuitBreaker.init ⟨0, none⟩ none).failure_threshold = 100 ∧
    (CircuitBreaker.init ⟨0, none⟩ none).failure_threshold ≠
      (CircuitBreaker.init_spec ⟨0, none⟩ none 50).failure_threshold :=
  ⟨rfl, by decide⟩

/-- C8 (amended): the constructor accepts a storage (required) and an
optional failure checker; the failure threshold is not a constructor
input — it is hard-coded to 100 (so `init` coincides with the
spec-worded constructor exactly at threshold 100) and no breaker
operation changes it afterwards. -/
theorem threshold_fixed_at_100 (s : FailureCounter) (fc : Option (Value → Bool))
    (f : Value → Bool) (b : CircuitBreaker) (now : Nat) (behavior : Except Exc Value) :
    CircuitBreaker.init s fc = CircuitBreaker.init_spec s fc 100 ∧
    (CircuitBreaker.init s fc).failure_threshold = 100 ∧
    (b.call now behavior).after.failure_threshold = b.failure_threshold ∧
    (b.add_failure_checker f).failure_threshold = b.failure_threshold ∧
    b.reset.failure_threshold = b.failure_threshold ∧
    (b.record_failure now).failure_threshold = b.failure_threshold := by
  refine ⟨rfl, rfl, ?_, rfl, rfl, rfl⟩
  rcases hst : b.state now with e | st
  · simp [CircuitBreaker.call, hst]
  · cases st with
    | open_ => simp [CircuitBreaker.call, hst]
    | half_open =>
      cases hr : runOp behavior <;>
        (simp only [CircuitBreaker.call, hst, hr]
         split <;> rfl)
    | closed =>
      cases hr : runOp behavior <;>
        (simp only [CircuitBreaker.call, hst, hr]
         split <;> rfl)

/-! ### C3 -/

/-- C3 counterexample: the 102nd call of Scenario A (made at time 1,
strictly after the last failure at time 0) does not raise
`CircuitBreakerOpenedError` — the code raises the base class. -/
theorem scenarioA_102nd_not_opened_error :
    ((scenarioA 101).call 1 failingBehavior).outcome ≠
      CallOutcome.raised Exc.circuitBreakerOpenedError := by
  decide

/-- C3 (amended): with the default threshold 100, an always-raising
operation and an always-true failure checker, starting from a zeroed
counter: each of the first 101 calls (made at time 0) invokes the
operation and increments the counter to its index, so
`total_failures = 101` afterward; the 102nd call, made at time 1
(strictly after the last failure time 0), raises the base
`CircuitBreakerError` — not `CircuitBreakerOpenedError` — and does not
invoke the operation. -/
theorem scenarioA_result :
    ((List.range 101).all fun k => ((scenarioA k).call 0 failingBehavior).invoked) = true ∧
    ((List.range 101).all fun k =>
      (scenarioA (k + 1)).storage.total_failures == k + 1) = true ∧
    (scenarioA 101).storage.total_failures = 101 ∧
    ((scenarioA 101).call 1 failingBehavior).invoked = false ∧
    ((scenarioA 101).call 1 failingBehavior).outcome =
      CallOutcome.raised Exc.circuitBreakerError := by
  refine ⟨?_, ?_, ?_, ?_, ?_⟩ <;> decide
